import Mathlib

/-!
Verification of the forking backend of a local development EVM node.

The environment initializer (`environment` and `configure_env` in
`crates/evm/core/src/fork/init.rs`) is embedded directly from the source.
The layered fork database (immutable remote view, writable overlay,
snapshot manager, fork controller) is present in this repository only
through its integration tests, so those parts are modelled from the
specification; each such definition carries a doc comment starting with
`Modelled from the spec:`.
-/

namespace Fork

/-- Addresses are modelled as natural numbers (the 160-bit range is not
load-bearing for any property proved here). -/
abbrev Address := Nat

/-- Maximum value of `usize` on the 64-bit targets the node runs on. -/
def usizeMax : Nat := 2 ^ 64 - 1

/-- The fields of the revm `CfgEnv` that `init.rs` reads or writes. -/
structure CfgEnv where
  chain_id : Nat
  memory_limit : Nat
  limit_contract_code_size : Option Nat
  disable_eip3607 : Bool
  disable_block_gas_limit : Bool
  disable_nonce_check : Bool
  deriving DecidableEq, Repr

/-- The revm `CfgEnv::default()` values for the fields modelled here:
mainnet chain id, default memory limit, no code-size override, all checks
enabled. -/
def CfgEnv.base : CfgEnv where
  chain_id := 1
  memory_limit := 2 ^ 32
  limit_contract_code_size := none
  disable_eip3607 := false
  disable_block_gas_limit := false
  disable_nonce_check := false

/-- Embedded from `configure_env` in `crates/evm/core/src/fork/init.rs`:
starts from the default configuration, then sets the chain id and memory
limit, lifts the contract code-size limit to `usize::MAX`, disables the
EIP-3607 sender-code check and the nonce check, and sets the
block-gas-limit flag from the argument. -/
def configure_env (chain_id : Nat) (memory_limit : Nat)
    (disable_block_gas_limit : Bool) : CfgEnv :=
  { CfgEnv.base with
    chain_id := chain_id
    memory_limit := memory_limit
    limit_contract_code_size := some usizeMax
    disable_eip3607 := true
    disable_block_gas_limit := disable_block_gas_limit
    disable_nonce_check := true }

/-- The header fields of a fetched remote block that `environment` reads
(via the alloy `BlockHeader` trait). `mix_hash` and `base_fee_per_gas`
are optional in the RPC schema. -/
structure BlockHeader where
  number : Nat
  timestamp : Nat
  beneficiary : Address
  difficulty : Nat
  mix_hash : Option Nat
  base_fee_per_gas : Option Nat
  gas_limit : Nat
  deriving DecidableEq, Repr

/-- The revm `BlockEnv` fields that `environment` fills. -/
structure BlockEnv where
  number : Nat
  timestamp : Nat
  beneficiary : Address
  difficulty : Nat
  prevrandao : Option Nat
  basefee : Nat
  gas_limit : Nat
  deriving DecidableEq, Repr

/-- The revm `TxEnv` fields that `environment` fills. -/
structure TxEnv where
  caller : Address
  gas_price : Nat
  chain_id : Option Nat
  gas_limit : Nat
  deriving DecidableEq, Repr

/-- Pairing of configuration and block environment, as in the source. -/
structure EvmEnv where
  cfg_env : CfgEnv
  block_env : BlockEnv
  deriving DecidableEq, Repr

/-- The full environment returned by `environment`. -/
structure Env where
  evm_env : EvmEnv
  tx : TxEnv
  deriving DecidableEq, Repr

/-- Embedded from `environment` in `crates/evm/core/src/fork/init.rs`
(lines 49 to 76): the construction of the environment from the fetched
gas price, chain id and block, before the chain-specific post-processing
pass `apply_chain_and_block_specific_env_changes`, which lives outside
this repository slice. -/
def environment (memory_limit : Nat) (gas_price : Option Nat)
    (override_chain_id : Option Nat) (origin : Address)
    (disable_block_gas_limit : Bool) (fork_gas_price : Nat)
    (rpc_chain_id : Nat) (block : BlockHeader) : Env :=
  { evm_env :=
      { cfg_env := configure_env (override_chain_id.getD rpc_chain_id)
          memory_limit disable_block_gas_limit
        block_env :=
          { number := block.number
            timestamp := block.timestamp
            beneficiary := block.beneficiary
            difficulty := block.difficulty
            prevrandao := block.mix_hash
            basefee := block.base_fee_per_gas.getD 0
            gas_limit := block.gas_limit } }
    tx :=
      { caller := origin
        gas_price := gas_price.getD fork_gas_price
        chain_id := some (override_chain_id.getD rpc_chain_id)
        gas_limit := block.gas_limit } }

/-- The two failure messages produced by the block-resolution step of
`environment` (lines 31 to 47 of `init.rs`), kept structurally: the
first bail formats both the requested and the latest block number, the
second bail formats only the requested one. -/
inductive BlockFetchError where
  | noBlockWithLatest (block_number : Nat) (latest : Nat)
  | noBlock (block_number : Nat)
  deriving DecidableEq, Repr

/-- Whether two fetch errors come from the same bail site (same error
form, ignoring the interpolated numbers). -/
def BlockFetchError.sameShape : BlockFetchError → BlockFetchError → Bool
  | .noBlockWithLatest _ _, .noBlockWithLatest _ _ => true
  | .noBlock _, .noBlock _ => true
  | _, _ => false

/-- Embedded from `environment` (lines 31 to 47 of `init.rs`): given the
requested block number, the (possibly null) result of
`get_block_by_number`, and the result of the follow-up
`get_block_number` call, return either the block or the bail error; the
second component records whether `NON_ARCHIVE_NODE_WARNING` was logged,
which the source does exactly when the follow-up call succeeds and the
requested number is at most the latest one. -/
def resolveForkBlock (block_number : Nat) (block : Option BlockHeader)
    (latest_call : Except Unit Nat) :
    Except BlockFetchError BlockHeader × Bool :=
  match block with
  | some b => (Except.ok b, false)
  | none =>
    match latest_call with
    | Except.ok latest =>
        (Except.error (BlockFetchError.noBlockWithLatest block_number latest),
         decide (block_number ≤ latest))
    | Except.error _ =>
        (Except.error (BlockFetchError.noBlock block_number), false)

/-- Modelled from the spec: an account as the fork database sees it
(section 3); code and storage are not load-bearing for the claims
settled here, so nonce and balance are kept. -/
structure Account where
  nonce : Nat
  balance : Nat
  deriving DecidableEq, Repr

/-- The zero account, to which missing remote accounts resolve
(section 4.C). -/
def Account.zero : Account := ⟨0, 0⟩

/-- Lookup in the overlay, an association list from address to account;
the most recent write for an address shadows older ones. -/
def lookupAcc : List (Address × Account) → Address → Option Account
  | [], _ => none
  | (a, acc) :: rest, k => if a = k then some acc else lookupAcc rest k

/-- Modelled from the spec: the image a snapshot captures — the overlay,
the chain head, and the generation counter bound to the current fork
config (section 4.F). -/
structure SnapshotData where
  overlay : List (Address × Account)
  head : Nat
  generation : Nat
  deriving DecidableEq, Repr

/-- Modelled from the spec: the state of the forking backend, absent from
this repository slice (only its tests are under the sources). `remote`
is the immutable remote view C, `overlay` the writable layer D,
`head` the local chain head, and `snapshots`, `next_id`, `generation`
the snapshot-manager state (sections 3, 4.C, 4.D, 4.F). -/
structure NodeState where
  remote : Address → Account
  overlay : List (Address × Account)
  head : Nat
  snapshots : List (Nat × SnapshotData)
  next_id : Nat
  generation : Nat

/-- Modelled from the spec (section 3, invariant 2): for any key the read
goes to the overlay if present, else to the remote view. -/
def NodeState.account (s : NodeState) (a : Address) : Account :=
  match lookupAcc s.overlay a with
  | some acc => acc
  | none => s.remote a

/-- Balance as served to RPC callers: overlay-then-remote. -/
def getBalance (s : NodeState) (a : Address) : Nat :=
  (s.account a).balance

/-- Nonce as served to RPC callers: overlay-then-remote. -/
def getNonce (s : NodeState) (a : Address) : Nat :=
  (s.account a).nonce

/-- Modelled from the spec: the cheat code `anvil_setBalance` is an
overlay write (section 6); it records the new balance in the overlay and
touches nothing else. -/
def anvil_setBalance (a : Address) (v : Nat) (s : NodeState) : NodeState :=
  { s with overlay := (a, { s.account a with balance := v }) :: s.overlay }

/-- Modelled from the spec: the cheat code `anvil_addBalance` is an
overlay write (section 6) that adds to the currently read balance
(overlay-then-remote). -/
def anvil_addBalance (a : Address) (w : Nat) (s : NodeState) : NodeState :=
  { s with
    overlay := (a, { s.account a with balance := getBalance s a + w }) :: s.overlay }

/-- Modelled from the spec: the local writes that can occur between a
snapshot and a revert — cheat-code overlay writes and a locally mined
transfer transaction (sections 4.D and 6). Every write mutates only the
overlay and the chain head; the remote view and the snapshot-manager
state are untouched (section 3, invariant 1). -/
inductive Write where
  | setBalance (a : Address) (v : Nat)
  | addBalance (a : Address) (w : Nat)
  | setNonce (a : Address) (n : Nat)
  | transferTx (sender : Address) (recipient : Address) (amount : Nat)
  deriving DecidableEq, Repr

/-- Modelled from the spec: applying one local write. A mined transfer
bumps the sender nonce, moves the amount, and advances the chain head by
one block (section 3, invariant 3). -/
def applyWrite (s : NodeState) : Write → NodeState
  | .setBalance a v => anvil_setBalance a v s
  | .addBalance a w => anvil_addBalance a w s
  | .setNonce a n =>
      { s with overlay := (a, { s.account a with nonce := n }) :: s.overlay }
  | .transferTx sender recipient amount =>
      let sAcc := s.account sender
      let rAcc := s.account recipient
      { s with
        overlay :=
          (recipient, { rAcc with balance := rAcc.balance + amount }) ::
          (sender, { sAcc with
            nonce := sAcc.nonce + 1
            balance := sAcc.balance - amount }) :: s.overlay
        head := s.head + 1 }

/-- Applying a sequence of local writes in order. -/
def applyWrites (s : NodeState) : List Write → NodeState
  | [] => s
  | w :: ws => applyWrites (applyWrite s w) ws

/-- Modelled from the spec (section 4.F): `evm_snapshot` captures the
overlay image, the current chain head and the generation counter under a
fresh, monotonically increasing id, and returns that id. -/
def evm_snapshot (s : NodeState) : Nat × NodeState :=
  (s.next_id,
   { s with
     snapshots := (s.next_id, ⟨s.overlay, s.head, s.generation⟩) :: s.snapshots
     next_id := s.next_id + 1 })

/-- Finding the snapshot registered under an id, most recent first. -/
def findSnapshot : List (Nat × SnapshotData) → Nat → Option SnapshotData
  | [], _ => none
  | (i, d) :: rest, id => if i = id then some d else findSnapshot rest id

/-- The state a successful revert produces: the overlay and chain head of
the captured image, with every snapshot of id at least the reverted one
dropped from the registry. -/
def restoreState (s : NodeState) (d : SnapshotData) (id : Nat) : NodeState :=
  { s with
    overlay := d.overlay
    head := d.head
    snapshots := s.snapshots.filter (fun e => e.1 < id) }

/-- Modelled from the spec (section 4.F): `evm_revert` returns true iff a
live snapshot with the id exists and its generation matches the current
fork config generation; on success it restores the overlay and chain
head and invalidates every snapshot with id at least the reverted one;
otherwise it returns false and leaves the state unchanged. -/
def evm_revert (id : Nat) (s : NodeState) : Bool × NodeState :=
  match findSnapshot s.snapshots id with
  | some d =>
      if d.generation = s.generation then (true, restoreState s d id)
      else (false, s)
  | none => (false, s)

/-- Modelled from the spec (section 4.G): `anvil_reset` atomically
replaces the remote view, clears the overlay, moves the chain head to
the new fork block, and bumps the snapshot generation, invalidating all
outstanding snapshots. -/
def anvil_reset (newRemote : Address → Account) (forkBlock : Nat)
    (s : NodeState) : NodeState :=
  { remote := newRemote
    overlay := []
    head := forkBlock
    snapshots := s.snapshots
    next_id := s.next_id
    generation := s.generation + 1 }

/-- Modelled from the spec (section 8, scenario 3): the remote mainnet
state at block 14608400; the only fact the spec records about it is the
balance of the address 0xdEaD. -/
def mainnetRemoteAt14608400 : Address → Account := fun a =>
  if a = 0xdEaD then { nonce := 0, balance := 12556069338441120059867 }
  else Account.zero

/-- Modelled from the spec: a freshly started non-forked node — chain
head 0, empty overlay, every untouched balance 0, no snapshots. -/
def nonForkedStart : NodeState :=
  { remote := fun _ => Account.zero
    overlay := []
    head := 0
    snapshots := []
    next_id := 0
    generation := 0 }

/-- Modelled from the spec (section 6): the gas configuration of the
node — the block gas limit taken from the remote fork block and the flag
that disables its enforcement. -/
structure GasConfig where
  block_gas_limit : Nat
  disable_block_gas_limit : Bool
  deriving DecidableEq, Repr

/-- Modelled from the spec (section 6): `eth_gasLimit` reports
`2 ^ 64 - 1` when block-gas-limit enforcement is disabled, and the
configured block gas limit otherwise. -/
def eth_gasLimit (cfg : GasConfig) : Nat :=
  if cfg.disable_block_gas_limit then 2 ^ 64 - 1 else cfg.block_gas_limit

/-- Modelled from the spec (section 8): mining back-to-back transactions
with the given gas usages; with enforcement on, a transaction fails when
the cumulative gas would exceed the block gas limit; with enforcement
disabled every transaction succeeds. Returns one success flag per
transaction. -/
def mineTxs (cfg : GasConfig) : List Nat → Nat → List Bool
  | [], _ => []
  | g :: gs, used =>
      if cfg.disable_block_gas_limit ∨ used + g ≤ cfg.block_gas_limit then
        true :: mineTxs cfg gs (used + g)
      else
        false :: mineTxs cfg gs used

/-- Equation for a successful revert: when the id is registered and the
generation matches, revert answers true and produces the restored
state. -/
theorem evm_revert_eq_of_found (id : Nat) (s : NodeState) (d : SnapshotData)
    (hf : findSnapshot s.snapshots id = some d)
    (hg : d.generation = s.generation) :
    evm_revert id s = (true, restoreState s d id) := by
  simp only [evm_revert, hf]
  rw [if_pos hg]

/-- Equation for a failed revert: when the id is not registered, revert
answers false and leaves the state unchanged. -/
theorem evm_revert_eq_of_none (id : Nat) (s : NodeState)
    (hf : findSnapshot s.snapshots id = none) :
    evm_revert id s = (false, s) := by
  simp only [evm_revert, hf]

/-- A single local write touches only the overlay and the chain head:
the remote view and the snapshot-manager state are preserved. -/
theorem applyWrite_frame (s : NodeState) (w : Write) :
    (applyWrite s w).remote = s.remote ∧
    (applyWrite s w).snapshots = s.snapshots ∧
    (applyWrite s w).next_id = s.next_id ∧
    (applyWrite s w).generation = s.generation := by
  cases w <;> exact ⟨rfl, rfl, rfl, rfl⟩

/-- A sequence of local writes preserves the remote view and the
snapshot-manager state. -/
theorem applyWrites_frame (W : List Write) :
    ∀ s : NodeState, (applyWrites s W).remote = s.remote ∧
      (applyWrites s W).snapshots = s.snapshots ∧
      (applyWrites s W).next_id = s.next_id ∧
      (applyWrites s W).generation = s.generation := by
  induction W with
  | nil => intro s; exact ⟨rfl, rfl, rfl, rfl⟩
  | cons w ws ih =>
      intro s
      obtain ⟨h1, h2, h3, h4⟩ := applyWrite_frame s w
      obtain ⟨g1, g2, g3, g4⟩ := ih (applyWrite s w)
      exact ⟨g1.trans h1, g2.trans h2, g3.trans h3, g4.trans h4⟩

/-- After filtering the snapshot registry down to ids below a cutoff, no
id at or above the cutoff can be found. -/
theorem findSnapshot_filter_lt (l : List (Nat × SnapshotData)) (c id : Nat)
    (h : c ≤ id) :
    findSnapshot (l.filter (fun e => e.1 < c)) id = none := by
  induction l with
  | nil => rfl
  | cons e rest ih =>
      obtain ⟨i, d⟩ := e
      by_cases hi : i < c
      · have hne : i ≠ id := Nat.ne_of_lt (Nat.lt_of_lt_of_le hi h)
        simp [List.filter_cons, hi, findSnapshot, hne, ih]
      · simp [List.filter_cons, hi, ih]

/-- C6: for every chain id, memory limit and disable flag, `configure_env`
lifts the contract code-size limit to `usize::MAX` (disabling it),
disables the EIP-3607 sender-code check, disables the nonce check, and
disables block-gas-limit enforcement exactly when the flag is set. -/
theorem configure_env_disables_checks (chain_id memory_limit : Nat)
    (flag : Bool) :
    (configure_env chain_id memory_limit flag).limit_contract_code_size
        = some usizeMax ∧
    (configure_env chain_id memory_limit flag).disable_eip3607 = true ∧
    (configure_env chain_id memory_limit flag).disable_nonce_check = true ∧
    ((configure_env chain_id memory_limit flag).disable_block_gas_limit = true
        ↔ flag = true) :=
  ⟨rfl, rfl, rfl, Iff.rfl⟩

/-- C5: the environment built by `environment` copies the timestamp,
beneficiary, difficulty, mix-hash, base fee (defaulting to 0 when the
block has none) and gas limit of the fetched block; its chain id is the
override when given and the provider chain id otherwise; and the
transaction-level gas price is the override when given and the provider
gas price otherwise. -/
theorem environment_copies_block_fields (memory_limit : Nat)
    (gas_price : Option Nat) (override_chain_id : Option Nat)
    (origin : Address) (flag : Bool) (fork_gas_price : Nat)
    (rpc_chain_id : Nat) (block : BlockHeader) :
    (environment memory_limit gas_price override_chain_id origin flag
        fork_gas_price rpc_chain_id block).evm_env.block_env =
      { number := block.number
        timestamp := block.timestamp
        beneficiary := block.beneficiary
        difficulty := block.difficulty
        prevrandao := block.mix_hash
        basefee := block.base_fee_per_gas.getD 0
        gas_limit := block.gas_limit } ∧
    (environment memory_limit gas_price override_chain_id origin flag
        fork_gas_price rpc_chain_id block).evm_env.cfg_env.chain_id =
      override_chain_id.getD rpc_chain_id ∧
    (environment memory_limit gas_price override_chain_id origin flag
        fork_gas_price rpc_chain_id block).tx.gas_price =
      gas_price.getD fork_gas_price :=
  ⟨rfl, rfl, rfl⟩

/-- C9: the environment always carries a transaction-level chain id equal
to the configuration chain id (both are the override when given, else the
provider chain id), so the reported chain id and the one used for
transactions never disagree. -/
theorem environment_tx_chain_id_consistent (memory_limit : Nat)
    (gas_price : Option Nat) (override_chain_id : Option Nat)
    (origin : Address) (flag : Bool) (fork_gas_price : Nat)
    (rpc_chain_id : Nat) (block : BlockHeader) :
    (environment memory_limit gas_price override_chain_id origin flag
        fork_gas_price rpc_chain_id block).tx.chain_id =
      some ((environment memory_limit gas_price override_chain_id origin flag
        fork_gas_price rpc_chain_id block).evm_env.cfg_env.chain_id) :=
  rfl

/-- C4 counterexample: with requested block 5 and latest block 5 (the
non-archive situation) the resolution step logs the warning and fails
with the error naming both numbers; with requested block 6 and latest
block 5 (not a non-archive situation) it fails with an error of the very
same shape, without the warning. The returned error is therefore not a
dedicated non-archive-node error distinct from the failure returned
otherwise: only the side-channel log differs. -/
theorem resolveForkBlock_no_dedicated_error :
    (resolveForkBlock 5 none (Except.ok 5)).1
        = Except.error (BlockFetchError.noBlockWithLatest 5 5) ∧
    (resolveForkBlock 5 none (Except.ok 5)).2 = true ∧
    (resolveForkBlock 6 none (Except.ok 5)).1
        = Except.error (BlockFetchError.noBlockWithLatest 6 5) ∧
    (resolveForkBlock 6 none (Except.ok 5)).2 = false ∧
    BlockFetchError.sameShape (BlockFetchError.noBlockWithLatest 5 5)
        (BlockFetchError.noBlockWithLatest 6 5) = true := by
  refine ⟨rfl, by decide, rfl, by decide, rfl⟩

/-- C4 amended: when `get_block_by_number` returns null and the follow-up
`get_block_number` succeeds with height `latest`, `environment` logs the
operator-visible `NON_ARCHIVE_NODE_WARNING` exactly when the requested
height is at most `latest`, and fails with the error naming both heights
(the same error form whether or not the non-archive condition holds);
when the follow-up call fails it returns the generic error naming only
the requested height and logs nothing. -/
theorem resolveForkBlock_error_classification (n latest : Nat) :
    resolveForkBlock n none (Except.ok latest) =
      (Except.error (BlockFetchError.noBlockWithLatest n latest),
       decide (n ≤ latest)) ∧
    resolveForkBlock n none (Except.error ()) =
      (Except.error (BlockFetchError.noBlock n), false) :=
  ⟨rfl, rfl⟩

/-- C1: after the cheat-code write anvil_setBalance of value v to address
a, getBalance of a returns v, while the remote view is untouched: the
balance of a read through the inner fork database still equals the
pre-write remote value. -/
theorem setBalance_separate_states (s : NodeState) (a : Address) (v : Nat) :
    getBalance (anvil_setBalance a v s) a = v ∧
    (anvil_setBalance a v s).remote = s.remote ∧
    ((anvil_setBalance a v s).remote a).balance = (s.remote a).balance := by
  refine ⟨?_, rfl, rfl⟩
  simp [getBalance, NodeState.account, anvil_setBalance, lookupAcc]

/-- C10: anvil_addBalance adds to the current overlay balance: after
anvil_setBalance of v followed by anvil_addBalance of w, getBalance
returns v + w. -/
theorem anvil_addBalance_additive (s : NodeState) (a : Address) (v w : Nat) :
    getBalance (anvil_addBalance a w (anvil_setBalance a v s)) a = v + w := by
  simp [getBalance, NodeState.account, anvil_addBalance, anvil_setBalance,
    lookupAcc]

/-- C8: starting from a non-forked node (head 0, every untouched balance
0), resetting onto mainnet at block 14608400 moves the chain head to
14608400 and makes the balance of address 0xdEaD equal to
12556069338441120059867. -/
theorem anvil_reset_setup_mainnet :
    nonForkedStart.head = 0 ∧
    getBalance nonForkedStart 0xdEaD = 0 ∧
    (anvil_reset mainnetRemoteAt14608400 14608400 nonForkedStart).head
      = 14608400 ∧
    getBalance (anvil_reset mainnetRemoteAt14608400 14608400 nonForkedStart)
      0xdEaD = 12556069338441120059867 := by
  refine ⟨rfl, rfl, rfl, ?_⟩
  simp [getBalance, NodeState.account, anvil_reset, lookupAcc,
    mainnetRemoteAt14608400]

/-- With block-gas-limit enforcement disabled, every transaction of a
back-to-back sequence is mined successfully, whatever the cumulative
gas. -/
theorem mineTxs_all_true_of_disabled (cfg : GasConfig)
    (hd : cfg.disable_block_gas_limit = true) :
    ∀ (gs : List Nat) (used : Nat), ∀ b ∈ mineTxs cfg gs used, b = true := by
  intro gs
  induction gs with
  | nil => intro used b hb; simp [mineTxs] at hb
  | cons g rest ih =>
      intro used b hb
      simp only [mineTxs, hd, true_or, if_true] at hb
      rcases List.mem_cons.mp hb with h | h
      · exact h
      · exact ih (used + g) b h

/-- C7: when the node is started with the block-gas-limit disabled flag,
the reported gas limit equals 2 ^ 64 - 1, and back-to-back transactions
whose combined gas exceeds the remote fork block gas limit all
succeed. -/
theorem disabled_gas_limit_reports_max_and_allows_txs (cfg : GasConfig)
    (gs : List Nat) (hd : cfg.disable_block_gas_limit = true)
    (hsum : cfg.block_gas_limit < gs.sum) :
    eth_gasLimit cfg = 2 ^ 64 - 1 ∧ ∀ b ∈ mineTxs cfg gs 0, b = true := by
  constructor
  · simp [eth_gasLimit, hd]
  · exact mineTxs_all_true_of_disabled cfg hd gs 0

/-- C7 witness: a concrete configuration with block gas limit 100 and
enforcement disabled, and two transactions of 60 gas each whose combined
gas 120 exceeds the limit. -/
theorem disabled_gas_limit_witness :
    (⟨100, true⟩ : GasConfig).disable_block_gas_limit = true ∧
    (⟨100, true⟩ : GasConfig).block_gas_limit < ([60, 60] : List Nat).sum ∧
    (eth_gasLimit ⟨100, true⟩ = 2 ^ 64 - 1 ∧
      ∀ b ∈ mineTxs ⟨100, true⟩ [60, 60] 0, b = true) :=
  ⟨rfl, by decide,
   disabled_gas_limit_reports_max_and_allows_txs ⟨100, true⟩ [60, 60] rfl
     (by decide)⟩

/-- C2: for every state and every sequence of local writes performed
after taking a snapshot, reverting to that snapshot returns true and
restores every account nonce and balance and the chain head to their
exact pre-write values; an immediately repeated revert of the same id
returns false and changes nothing. -/
theorem evm_revert_restores_pre_write_state (s : NodeState) (W : List Write) :
    (evm_revert (evm_snapshot s).1 (applyWrites (evm_snapshot s).2 W)).1
      = true ∧
    (∀ a, getBalance
        (evm_revert (evm_snapshot s).1 (applyWrites (evm_snapshot s).2 W)).2 a
      = getBalance s a) ∧
    (∀ a, getNonce
        (evm_revert (evm_snapshot s).1 (applyWrites (evm_snapshot s).2 W)).2 a
      = getNonce s a) ∧
    (evm_revert (evm_snapshot s).1 (applyWrites (evm_snapshot s).2 W)).2.head
      = s.head ∧
    (evm_revert (evm_snapshot s).1
      (evm_revert (evm_snapshot s).1
        (applyWrites (evm_snapshot s).2 W)).2).1 = false ∧
    (evm_revert (evm_snapshot s).1
      (evm_revert (evm_snapshot s).1
        (applyWrites (evm_snapshot s).2 W)).2).2
      = (evm_revert (evm_snapshot s).1
          (applyWrites (evm_snapshot s).2 W)).2 := by
  obtain ⟨hr, hsn, hn, hg⟩ := applyWrites_frame W (evm_snapshot s).2
  set t := applyWrites (evm_snapshot s).2 W with ht
  have hr2 : t.remote = s.remote := hr
  have hsn2 : t.snapshots =
      (s.next_id, (⟨s.overlay, s.head, s.generation⟩ : SnapshotData))
        :: s.snapshots := hsn
  have hg2 : t.generation = s.generation := hg
  have hfind : findSnapshot t.snapshots s.next_id =
      some ⟨s.overlay, s.head, s.generation⟩ := by
    rw [hsn2]; simp [findSnapshot]
  have hrev : evm_revert (evm_snapshot s).1 t =
      (true, restoreState t ⟨s.overlay, s.head, s.generation⟩ s.next_id) :=
    evm_revert_eq_of_found s.next_id t _ hfind hg2.symm
  have hnone : findSnapshot
      (restoreState t ⟨s.overlay, s.head, s.generation⟩ s.next_id).snapshots
      s.next_id = none :=
    findSnapshot_filter_lt t.snapshots s.next_id s.next_id (Nat.le_refl _)
  have hrev2 : evm_revert (evm_snapshot s).1
        (evm_revert (evm_snapshot s).1 t).2 =
      (false, (evm_revert (evm_snapshot s).1 t).2) := by
    rw [hrev]
    exact evm_revert_eq_of_none s.next_id _ hnone
  refine ⟨by rw [hrev], ?_, ?_, by rw [hrev]; rfl, by rw [hrev2],
    by rw [hrev2]⟩
  · intro a
    rw [hrev]
    simp [getBalance, NodeState.account, restoreState, hr2]
  · intro a
    rw [hrev]
    simp [getNonce, NodeState.account, restoreState, hr2]

/-- C3: taking snapshot s1, performing local writes, taking snapshot s2,
performing further writes, a successful revert to s1 invalidates every
snapshot with id at least s1, so a subsequent revert to s2 returns
false. -/
theorem evm_revert_invalidates_later_snapshots (s : NodeState)
    (W₁ W₂ : List Write) :
    (evm_revert (evm_snapshot s).1
      (applyWrites
        (evm_snapshot (applyWrites (evm_snapshot s).2 W₁)).2 W₂)).1 = true ∧
    (evm_revert (evm_snapshot (applyWrites (evm_snapshot s).2 W₁)).1
      (evm_revert (evm_snapshot s).1
        (applyWrites
          (evm_snapshot (applyWrites (evm_snapshot s).2 W₁)).2 W₂)).2).1
      = false := by
  obtain ⟨ar, asn, an, ag⟩ := applyWrites_frame W₁ (evm_snapshot s).2
  set u := applyWrites (evm_snapshot s).2 W₁ with hu
  obtain ⟨br, bsn, bn, bg⟩ := applyWrites_frame W₂ (evm_snapshot u).2
  set t := applyWrites (evm_snapshot u).2 W₂ with htdef
  have hun : u.next_id = s.next_id + 1 := an
  have hug : u.generation = s.generation := ag
  have husn : u.snapshots =
      (s.next_id, (⟨s.overlay, s.head, s.generation⟩ : SnapshotData))
        :: s.snapshots := asn
  have htsn : t.snapshots =
      (u.next_id, (⟨u.overlay, u.head, u.generation⟩ : SnapshotData))
        :: u.snapshots := bsn
  have htg : t.generation = s.generation := by
    have hbu : t.generation = u.generation := bg
    rw [hbu, hug]
  have hfind : findSnapshot t.snapshots s.next_id =
      some ⟨s.overlay, s.head, s.generation⟩ := by
    rw [htsn, husn, hun]
    simp [findSnapshot]
  have hrev : evm_revert (evm_snapshot s).1 t =
      (true, restoreState t ⟨s.overlay, s.head, s.generation⟩ s.next_id) :=
    evm_revert_eq_of_found s.next_id t _ hfind htg.symm
  have hnone : findSnapshot
      (restoreState t ⟨s.overlay, s.head, s.generation⟩ s.next_id).snapshots
      u.next_id = none :=
    findSnapshot_filter_lt t.snapshots s.next_id u.next_id
      (by rw [hun]; exact Nat.le_succ _)
  constructor
  · rw [hrev]
  · rw [hrev]
    have hr2 := evm_revert_eq_of_none u.next_id _ hnone
    show (evm_revert u.next_id
      (restoreState t ⟨s.overlay, s.head, s.generation⟩ s.next_id)).1 = false
    rw [hr2]

end Fork
